import Mathlib

/-!
# Verification of the finstar portfolio dashboard (`src/Home.py`)

This file models the data-generation and derived-metric logic of the
single-script Streamlit dashboard:

* `generate_portfolio_data` builds a five-column table (Asset, Value,
  Returns, Risk, Colors) from uniform random draws; the draws are modelled
  as explicit streams `ℕ → ℚ`, and `pd.DataFrame` construction is modelled
  as a partial operation that fails when the columns have unequal lengths.
* `generate_historical_data` compounds a starting value of 100000 by a
  random daily change for `days` iterations, appending the value rounded
  to two decimals; the running value itself is kept unrounded.
* The display-only metrics (total value, averages, allocation percentages,
  the `describe()` summary block) are pure reductions over these tables.
  Division by a zero total follows the IEEE/pandas convention (NaN or
  signed infinity), modelled by the `PdFloat` type.

Real numbers are modelled by `ℚ`; `round(x, 2)` is modelled by `round2`,
which rounds half away from zero upward (`⌊100 x + 1/2⌋ / 100`).  Exact
ties never occur at any input considered here, so the half-even tie rule
of the original runtime agrees with `round2` on every statement below.
Calendar dates are modelled by `ℤ` day numbers with a fixed `today`.
-/

/-- Model of Python `round(q, 2)`: round to two decimal places. -/
def round2 (q : ℚ) : ℚ := (⌊100 * q + 1 / 2⌋ : ℚ) / 100

/-- A rational is representable with two decimal places. -/
def twoDecimal (q : ℚ) : Prop := ∃ n : ℤ, q = (n : ℚ) / 100

/-- The fixed asset-name enumeration of `generate_portfolio_data`. -/
def assetNames : List String :=
  ["Stock", "Bond", "Real Estate", "Cryptocurrency", "Commodities"]

/-- The qualitative palette `px.colors.qualitative.Set3` (12 colors). -/
def set3Colors : List String :=
  ["rgb(141,211,199)", "rgb(255,255,179)", "rgb(190,186,218)",
   "rgb(251,128,114)", "rgb(128,177,211)", "rgb(253,180,98)",
   "rgb(179,222,105)", "rgb(252,205,229)", "rgb(217,217,217)",
   "rgb(188,128,189)", "rgb(204,235,197)", "rgb(255,237,111)"]

/-- The five named columns assembled by `generate_portfolio_data` before
they are handed to `pd.DataFrame`. -/
structure RawColumns where
  asset : List String
  value : List ℚ
  returns : List ℚ
  risk : List ℚ
  colors : List String
deriving DecidableEq

/-- Model of `pd.DataFrame(dict)`: succeeds only when all columns have
the same length, otherwise raises (returns `none`). -/
def pdDataFrame (c : RawColumns) : Option RawColumns :=
  if c.value.length = c.asset.length ∧ c.returns.length = c.asset.length
      ∧ c.risk.length = c.asset.length ∧ c.colors.length = c.asset.length
  then some c else none

/-- The column dictionary built in `generate_portfolio_data`: asset names
and palette are truncated by slicing (`assets[:num_assets]`,
`Set3[:num_assets]`); each numeric column draws `num_assets` uniform
values (streams `vs`, `rs`, `ks`) and rounds them to two decimals. -/
def generate_portfolio_columns (num_assets : ℕ) (vs rs ks : ℕ → ℚ) : RawColumns where
  asset := assetNames.take num_assets
  value := (List.range num_assets).map fun i => round2 (vs i)
  returns := (List.range num_assets).map fun i => round2 (rs i)
  risk := (List.range num_assets).map fun i => round2 (ks i)
  colors := set3Colors.take num_assets

/-- `generate_portfolio_data(num_assets)` from `src/Home.py`, with the
random draws passed explicitly. -/
def generate_portfolio_data (num_assets : ℕ) (vs rs ks : ℕ → ℚ) : Option RawColumns :=
  pdDataFrame (generate_portfolio_columns num_assets vs rs ks)

/-- Running (unrounded) portfolio value after `n` loop iterations of
`generate_historical_data`: `initial_value = 100000`, then
`initial_value *= (1 + daily_change)` each iteration. -/
def compoundedValue (deltas : ℕ → ℚ) : ℕ → ℚ
  | 0 => 100000
  | n + 1 => compoundedValue deltas n * (1 + deltas n)

/-- The `portfolio_values` list: after each update the *running* value is
appended rounded to two decimals (the running value itself stays
unrounded). -/
def portfolioValues (days : ℕ) (deltas : ℕ → ℚ) : List ℚ :=
  (List.range days).map fun i => round2 (compoundedValue deltas (i + 1))

/-- The `dates` list: `(datetime.now() - timedelta(days=x)).date()` for
`x` in `range(days)`, with the current date modelled as a fixed integer
day number `today`. -/
def histDates (days : ℕ) (today : ℤ) : List ℤ :=
  (List.range days).map fun (x : ℕ) => today - (x : ℤ)

/-- The two-column historical table. -/
structure HistDF where
  date : List ℤ
  value : List ℚ
deriving DecidableEq

/-- `generate_historical_data(days)` from `src/Home.py`: builds the date
and value columns and hands them to `pd.DataFrame` (which checks that the
columns have equal length). -/
def generate_historical_data (days : ℕ) (today : ℤ) (deltas : ℕ → ℚ) : Option HistDF :=
  if (portfolioValues days deltas).length = (histDates days today).length
  then some ⟨histDates days today, portfolioValues days deltas⟩ else none

/-- Modelled from the spec: the reference algorithm of `generateHistory`
("update `value *= (1+delta)`, round to 2 decimals, append"), read as
carrying the *rounded* value into the next iteration, so that each
appended value is a function of the prior rounded value and that step's
delta alone.  Used to compare the code against the spec's wording. -/
def specValue (deltas : ℕ → ℚ) : ℕ → ℚ
  | 0 => 100000
  | n + 1 => round2 (specValue deltas n * (1 + deltas n))

/-- Modelled from the spec: the value sequence produced by the reference
algorithm `specValue`. -/
def specHistoryValues (days : ℕ) (deltas : ℕ → ℚ) : List ℚ :=
  (List.range days).map fun i => specValue deltas (i + 1)

/-- `st.session_state.portfolio_df['Value'].sum()`. -/
def total_value (c : RawColumns) : ℚ := c.value.sum

/-- `st.session_state.portfolio_df['Returns'].mean()`. -/
def avg_return (c : RawColumns) : ℚ := c.returns.sum / c.returns.length

/-- `st.session_state.portfolio_df['Risk'].mean()`. -/
def avg_risk (c : RawColumns) : ℚ := c.risk.sum / c.risk.length

/-- An IEEE-style float value as produced by pandas arithmetic: an exact
rational, NaN, or a signed infinity. -/
inductive PdFloat where
  | num (q : ℚ)
  | nan
  | inf
  | ninf
deriving DecidableEq

/-- One entry of `allocation_data['Percentage'] = (Value / Value.sum() * 100).round(2)`:
pandas float division by a zero total yields NaN (for a zero numerator)
or a signed infinity, and `.round` passes those through. -/
def allocPctEntry (v total : ℚ) : PdFloat :=
  if total = 0 then (if v = 0 then .nan else if 0 < v then .inf else .ninf)
  else .num (round2 (v / total * 100))

/-- The `Percentage` column of the asset-allocation table. -/
def allocation_percentages (values : List ℚ) : List PdFloat :=
  values.map fun v => allocPctEntry v values.sum

/-- One column's block of `DataFrame.describe()` output.  `std` is the
square root of `sampleVariance`; since the square root of a rational is
in general irrational, the embedding carries the variance, and the std is
defined (non-NaN) exactly when `sampleVariance` is `some`. -/
structure ColumnStats where
  count : ℕ
  mean : Option ℚ
  sampleVariance : Option ℚ
  min : Option ℚ
  q25 : Option ℚ
  q50 : Option ℚ
  q75 : Option ℚ
  max : Option ℚ
deriving DecidableEq

/-- Column mean, undefined on an empty column. -/
def describeMean (xs : List ℚ) : Option ℚ :=
  if xs.length = 0 then none else some (xs.sum / xs.length)

/-- Sample variance with `ddof=1` (the square of pandas' `std`); NaN
(`none`) when fewer than two observations are present. -/
def describeVariance (xs : List ℚ) : Option ℚ :=
  if xs.length ≤ 1 then none
  else some ((xs.map fun x => (x - xs.sum / xs.length) ^ 2).sum / ((xs.length : ℚ) - 1))

/-- The column sorted ascending, as numpy does before taking percentiles. -/
def sortedColumn (xs : List ℚ) : List ℚ := List.insertionSort (· ≤ ·) xs

/-- Percentile with linear interpolation (numpy/pandas default): rank
`p * (n - 1)`, interpolating between the neighbouring order statistics. -/
def percentileAt (xs : List ℚ) (p : ℚ) : Option ℚ :=
  if xs.length = 0 then none
  else
    let s := sortedColumn xs
    let rank : ℚ := p * ((xs.length : ℚ) - 1)
    let lo : ℕ := ⌊rank⌋.toNat
    let a := s.getD lo 0
    let b := s.getD (lo + 1) a
    some (a + (rank - (lo : ℚ)) * (b - a))

/-- `describe()` for one numeric column. -/
def describeColumn (xs : List ℚ) : ColumnStats where
  count := xs.length
  mean := describeMean xs
  sampleVariance := describeVariance xs
  min := xs.min?
  q25 := percentileAt xs (1 / 4)
  q50 := percentileAt xs (1 / 2)
  q75 := percentileAt xs (3 / 4)
  max := xs.max?

/-- `st.session_state.portfolio_df[['Value', 'Returns', 'Risk']].describe()`:
the statistics block, computed independently per column. -/
def summary_stats (c : RawColumns) : ColumnStats × ColumnStats × ColumnStats :=
  (describeColumn c.value, describeColumn c.returns, describeColumn c.risk)

/-- The ambient randomness consumed by one `Refresh Data` handler run:
fresh draw streams for the three asset columns and the daily changes,
plus the current date. -/
structure RandomStream where
  assetValues : ℕ → ℚ
  assetReturns : ℕ → ℚ
  assetRisks : ℕ → ℚ
  histDeltas : ℕ → ℚ
  today : ℤ

/-- The per-session snapshot held in `st.session_state`. -/
structure SessionState where
  portfolio_df : Option RawColumns
  historical_df : Option HistDF

/-- The `Refresh Data` button handler: both tables are rebuilt from fresh
randomness with the source's default sizes (5 assets, 30 days). -/
def refresh_data (r : RandomStream) (_s : SessionState) : SessionState where
  portfolio_df := generate_portfolio_data 5 r.assetValues r.assetReturns r.assetRisks
  historical_df := generate_historical_data 30 r.today r.histDeltas

/-- The `Show Portfolio Overview` handler only renders; the snapshot is untouched. -/
def show_portfolio_overview (s : SessionState) : SessionState := s

/-- The `Show Asset Allocation` handler only renders; the snapshot is untouched. -/
def show_asset_allocation (s : SessionState) : SessionState := s

/-- The `Show Historical Performance` handler only renders; the snapshot is untouched. -/
def show_historical_performance (s : SessionState) : SessionState := s

/-- The `Show Risk vs Return Analysis` handler only renders; the snapshot is untouched. -/
def show_risk_vs_return (s : SessionState) : SessionState := s

/-- The `Show Detailed Asset Analysis` handler only renders; the snapshot is untouched. -/
def show_detailed_analysis (s : SessionState) : SessionState := s

/-! ## Basic facts about `round2` -/

lemma round2_eq_round_div (q : ℚ) : round2 q = (round (100 * q) : ℚ) / 100 := by
  rw [round_eq, round2]

lemma round2_mono {x y : ℚ} (h : x ≤ y) : round2 x ≤ round2 y := by
  have hf : (⌊100 * x + 1 / 2⌋ : ℤ) ≤ ⌊100 * y + 1 / 2⌋ :=
    Int.floor_le_floor (by linarith)
  have hq : ((⌊100 * x + 1 / 2⌋ : ℤ) : ℚ) ≤ ((⌊100 * y + 1 / 2⌋ : ℤ) : ℚ) := by
    exact_mod_cast hf
  simp only [round2]
  linarith

lemma round2_twoDecimal (x : ℚ) : twoDecimal (round2 x) := ⟨⌊100 * x + 1 / 2⌋, rfl⟩

lemma abs_round2_sub_le (x : ℚ) : |round2 x - x| ≤ 1 / 200 := by
  have h := abs_sub_round (100 * x)
  rw [round_eq] at h
  rw [round2]
  have he : (⌊100 * x + 1 / 2⌋ : ℚ) / 100 - x = -((100 * x - ⌊100 * x + 1 / 2⌋) / 100) := by
    ring
  rw [he, abs_neg, abs_div, show |(100 : ℚ)| = 100 from by norm_num]
  linarith

lemma round2_nonneg {x : ℚ} (h : 0 ≤ x) : 0 ≤ round2 x := by
  have hf : (0 : ℤ) ≤ ⌊100 * x + 1 / 2⌋ := Int.le_floor.mpr (by push_cast; linarith)
  have hq : (0 : ℚ) ≤ (⌊100 * x + 1 / 2⌋ : ℚ) := by exact_mod_cast hf
  rw [round2]
  positivity

lemma round2_pos {x : ℚ} (h : 1 / 200 ≤ x) : 0 < round2 x := by
  have hf : (1 : ℤ) ≤ ⌊100 * x + 1 / 2⌋ := Int.le_floor.mpr (by push_cast; linarith)
  have hq : (1 : ℚ) ≤ (⌊100 * x + 1 / 2⌋ : ℚ) := by exact_mod_cast hf
  rw [round2]
  positivity

lemma round2_intCast (n : ℤ) : round2 ((n : ℚ)) = n := by
  rw [round2]
  have h1 : 100 * (n : ℚ) + 1 / 2 = ((100 * n : ℤ) : ℚ) + 1 / 2 := by push_cast; ring
  rw [h1, Int.floor_int_add, show ⌊(1 / 2 : ℚ)⌋ = 0 from by norm_num]
  push_cast
  ring

lemma mem_roundedDraws {n : ℕ} {f : ℕ → ℚ} {lo hi : ℚ}
    (hlo : round2 lo = lo) (hhi : round2 hi = hi)
    (hf : ∀ i < n, lo ≤ f i ∧ f i ≤ hi) :
    ∀ x ∈ (List.range n).map (fun i => round2 (f i)), lo ≤ x ∧ x ≤ hi ∧ twoDecimal x := by
  intro x hx
  rw [List.mem_map] at hx
  obtain ⟨i, hmem, rfl⟩ := hx
  rw [List.mem_range] at hmem
  obtain ⟨h1, h2⟩ := hf i hmem
  exact ⟨hlo ▸ round2_mono h1, hhi ▸ round2_mono h2, round2_twoDecimal _⟩

/-! ## C1 and C9: `generate_portfolio_data` -/

/-- C1: for every `count` in [1,5] (and draws within the documented
ranges), `generate_portfolio_data(count)` succeeds and returns exactly
`count` rows whose names are the first `count` elements of the fixed
enumeration — hence unique and a prefix of it — and whose Value, Returns
and Risk entries lie in [10000,100000], [-15,25] and [5,20] respectively,
each rounded to two decimal places. -/
theorem generate_portfolio_data_spec (count : ℕ) (vs rs ks : ℕ → ℚ)
    (hc1 : 1 ≤ count) (hc5 : count ≤ 5)
    (hv : ∀ i < count, 10000 ≤ vs i ∧ vs i ≤ 100000)
    (hr : ∀ i < count, -15 ≤ rs i ∧ rs i ≤ 25)
    (hk : ∀ i < count, 5 ≤ ks i ∧ ks i ≤ 20) :
    ∃ df : RawColumns,
      generate_portfolio_data count vs rs ks = some df
      ∧ df.asset.length = count ∧ df.value.length = count
      ∧ df.returns.length = count ∧ df.risk.length = count
      ∧ df.asset = assetNames.take count
      ∧ df.asset.Nodup ∧ df.asset <+: assetNames
      ∧ (∀ x ∈ df.value, 10000 ≤ x ∧ x ≤ 100000 ∧ twoDecimal x)
      ∧ (∀ x ∈ df.returns, -15 ≤ x ∧ x ≤ 25 ∧ twoDecimal x)
      ∧ (∀ x ∈ df.risk, 5 ≤ x ∧ x ≤ 20 ∧ twoDecimal x) := by
  have ha : (generate_portfolio_columns count vs rs ks).asset.length = count := by
    simp only [generate_portfolio_columns, List.length_take, assetNames,
      List.length_cons, List.length_nil]
    omega
  have hcol : (generate_portfolio_columns count vs rs ks).colors.length = count := by
    simp only [generate_portfolio_columns, List.length_take, set3Colors,
      List.length_cons, List.length_nil]
    omega
  have hval : (generate_portfolio_columns count vs rs ks).value.length = count := by
    simp [generate_portfolio_columns]
  have hret : (generate_portfolio_columns count vs rs ks).returns.length = count := by
    simp [generate_portfolio_columns]
  have hrisk : (generate_portfolio_columns count vs rs ks).risk.length = count := by
    simp [generate_portfolio_columns]
  refine ⟨generate_portfolio_columns count vs rs ks, ?_, ha, hval, hret, hrisk, rfl, ?_, ?_,
    mem_roundedDraws (by exact_mod_cast round2_intCast 10000)
      (by exact_mod_cast round2_intCast 100000) hv,
    mem_roundedDraws (by exact_mod_cast round2_intCast (-15))
      (by exact_mod_cast round2_intCast 25) hr,
    mem_roundedDraws (by exact_mod_cast round2_intCast 5)
      (by exact_mod_cast round2_intCast 20) hk⟩
  · unfold generate_portfolio_data pdDataFrame
    rw [if_pos]
    exact ⟨hval.trans ha.symm, hret.trans ha.symm, hrisk.trans ha.symm, hcol.trans ha.symm⟩
  · show (assetNames.take count).Nodup
    have hnd : assetNames.Nodup := by decide
    exact List.Nodup.sublist (List.take_sublist count assetNames) hnd
  · exact ⟨assetNames.drop count, List.take_append_drop count assetNames⟩

/-- C1 witness: the theorem instantiated at `count = 3` with constant
in-range draws. -/
theorem generate_portfolio_data_spec_witness :
    ∃ df : RawColumns,
      generate_portfolio_data 3 (fun _ => 20000) (fun _ => 10) (fun _ => 10) = some df
      ∧ df.asset.length = 3 ∧ df.value.length = 3
      ∧ df.returns.length = 3 ∧ df.risk.length = 3
      ∧ df.asset = assetNames.take 3
      ∧ df.asset.Nodup ∧ df.asset <+: assetNames
      ∧ (∀ x ∈ df.value, 10000 ≤ x ∧ x ≤ 100000 ∧ twoDecimal x)
      ∧ (∀ x ∈ df.returns, -15 ≤ x ∧ x ≤ 25 ∧ twoDecimal x)
      ∧ (∀ x ∈ df.risk, 5 ≤ x ∧ x ≤ 20 ∧ twoDecimal x) :=
  generate_portfolio_data_spec 3 (fun _ => 20000) (fun _ => 10) (fun _ => 10)
    (by norm_num) (by norm_num)
    (fun i _ => by norm_num) (fun i _ => by norm_num) (fun i _ => by norm_num)

/-- C9: for every `count > 5`, `generate_portfolio_data(count)` fails at
`pd.DataFrame` construction: the Asset column is truncated to 5 entries
and the Colors column to at most 12 while the numeric columns have
`count` entries, so the column lengths disagree; the call neither clamps
`count` nor returns a `count`-row table. -/
theorem generate_portfolio_data_overflow (count : ℕ) (vs rs ks : ℕ → ℚ)
    (h : 5 < count) :
    generate_portfolio_data count vs rs ks = none
    ∧ (generate_portfolio_columns count vs rs ks).asset.length = 5
    ∧ (generate_portfolio_columns count vs rs ks).colors.length = min count 12
    ∧ (generate_portfolio_columns count vs rs ks).value.length = count
    ∧ (generate_portfolio_columns count vs rs ks).returns.length = count
    ∧ (generate_portfolio_columns count vs rs ks).risk.length = count := by
  have ha : (generate_portfolio_columns count vs rs ks).asset.length = 5 := by
    simp only [generate_portfolio_columns, List.length_take, assetNames,
      List.length_cons, List.length_nil]
    omega
  have hval : (generate_portfolio_columns count vs rs ks).value.length = count := by
    simp [generate_portfolio_columns]
  refine ⟨?_, ha, ?_, hval, by simp [generate_portfolio_columns],
    by simp [generate_portfolio_columns]⟩
  · unfold generate_portfolio_data pdDataFrame
    rw [if_neg]
    intro hcon
    have h1 := hcon.1
    rw [ha, hval] at h1
    omega
  · simp only [generate_portfolio_columns, List.length_take, set3Colors,
      List.length_cons, List.length_nil]

/-- C9 witness: the theorem instantiated at `count = 6`. -/
theorem generate_portfolio_data_overflow_witness :
    generate_portfolio_data 6 (fun _ => 0) (fun _ => 0) (fun _ => 0) = none
    ∧ (generate_portfolio_columns 6 (fun _ => 0) (fun _ => 0) (fun _ => 0)).asset.length = 5
    ∧ (generate_portfolio_columns 6 (fun _ => 0) (fun _ => 0) (fun _ => 0)).colors.length
        = min 6 12
    ∧ (generate_portfolio_columns 6 (fun _ => 0) (fun _ => 0) (fun _ => 0)).value.length = 6
    ∧ (generate_portfolio_columns 6 (fun _ => 0) (fun _ => 0) (fun _ => 0)).returns.length = 6
    ∧ (generate_portfolio_columns 6 (fun _ => 0) (fun _ => 0) (fun _ => 0)).risk.length = 6 :=
  generate_portfolio_data_overflow 6 (fun _ => 0) (fun _ => 0) (fun _ => 0) (by norm_num)

/-! ## C10, C2, C3: `generate_historical_data` -/

lemma getD_map_range {α : Type*} {n i : ℕ} (f : ℕ → α) (d : α) (h : i < n) :
    ((List.range n).map f).getD i d = f i := by
  simp [List.getD_eq_getElem?_getD, List.getElem?_map, List.getElem?_range h]

lemma histDates_length (days : ℕ) (today : ℤ) : (histDates days today).length = days := by
  rw [histDates, List.length_map, List.length_range]

lemma portfolioValues_length (days : ℕ) (deltas : ℕ → ℚ) :
    (portfolioValues days deltas).length = days := by
  rw [portfolioValues, List.length_map, List.length_range]

set_option maxRecDepth 20000 in
set_option exponentiation.threshold 2000 in
lemma pow_bound_832 : ((50 : ℕ)) ^ 832 ≤ 2 * 10 ^ 7 * 49 ^ 832 := by decide

set_option maxRecDepth 20000 in
set_option exponentiation.threshold 2000 in
lemma pow_bound_833 : (2 * 10 ^ 7 * 49 ^ 833 : ℕ) < 50 ^ 833 := by decide

lemma lb_832 : (1 : ℚ) / 200 ≤ 100000 * ((49 : ℚ) / 50) ^ 832 := by
  have hq : ((50 : ℚ)) ^ 832 ≤ 2 * 10 ^ 7 * 49 ^ 832 := by exact_mod_cast pow_bound_832
  have h50 : (0 : ℚ) < 50 ^ 832 := by positivity
  rw [div_pow,
    show (100000 : ℚ) * ((49 : ℚ) ^ 832 / 50 ^ 832) = 100000 * 49 ^ 832 / 50 ^ 832 from by
      ring,
    le_div_iff h50]
  have hr : (1 : ℚ) / 200 * 50 ^ 832 = 50 ^ 832 / 200 := by ring
  rw [hr, div_le_iff (show (0 : ℚ) < 200 by norm_num)]
  have hr2 : (100000 : ℚ) * 49 ^ 832 * 200 = 2 * 10 ^ 7 * 49 ^ 832 := by ring
  linarith

lemma ub_833 : 100 * (100000 * ((49 : ℚ) / 50) ^ 833) < 1 / 2 := by
  have hq : (2 * 10 ^ 7 * (49 : ℚ) ^ 833) < 50 ^ 833 := by exact_mod_cast pow_bound_833
  have h50 : (0 : ℚ) < 50 ^ 833 := by positivity
  rw [div_pow,
    show (100 : ℚ) * (100000 * ((49 : ℚ) ^ 833 / 50 ^ 833))
        = 10 ^ 7 * 49 ^ 833 / 50 ^ 833 from by ring,
    div_lt_iff h50]
  linarith

lemma compoundedValue_lower {deltas : ℕ → ℚ} {n : ℕ}
    (h : ∀ i < n, -(1 / 50) ≤ deltas i) :
    100000 * ((49 : ℚ) / 50) ^ n ≤ compoundedValue deltas n := by
  induction n with
  | zero => simp [compoundedValue]
  | succ n ih =>
    have hn : ∀ i < n, -(1 / 50) ≤ deltas i := fun i hi => h i (Nat.lt_succ_of_lt hi)
    have hlow := ih hn
    have hpos : (0 : ℚ) < 100000 * ((49 : ℚ) / 50) ^ n := by positivity
    have hδ : (49 : ℚ) / 50 ≤ 1 + deltas n := by
      have := h n (Nat.lt_succ_self n)
      linarith
    have hmul : 100000 * ((49 : ℚ) / 50) ^ n * ((49 : ℚ) / 50)
        ≤ compoundedValue deltas n * (1 + deltas n) :=
      mul_le_mul hlow hδ (by norm_num) (le_trans hpos.le hlow)
    calc 100000 * ((49 : ℚ) / 50) ^ (n + 1)
        = 100000 * ((49 : ℚ) / 50) ^ n * ((49 : ℚ) / 50) := by rw [pow_succ]; ring
      _ ≤ compoundedValue deltas n * (1 + deltas n) := hmul
      _ = compoundedValue deltas (n + 1) := rfl

lemma compoundedValue_pos {deltas : ℕ → ℚ} {n : ℕ}
    (h : ∀ i < n, -(1 / 50) ≤ deltas i) : 0 < compoundedValue deltas n :=
  lt_of_lt_of_le (by positivity) (compoundedValue_lower h)

lemma generate_historical_data_eq (days : ℕ) (today : ℤ) (deltas : ℕ → ℚ) :
    generate_historical_data days today deltas
      = some ⟨histDates days today, portfolioValues days deltas⟩ := by
  unfold generate_historical_data
  rw [if_pos ((portfolioValues_length days deltas).trans (histDates_length days today).symm)]

/-- C10: `generate_historical_data` is total for every `days ≥ 0`: the two
columns always have equal length `days`, so `pd.DataFrame` succeeds, and
in particular `days = 0` performs zero iterations and yields the empty
two-column table without any error. -/
theorem generate_historical_data_total_safe :
    (∀ (days : ℕ) (today : ℤ) (deltas : ℕ → ℚ),
      generate_historical_data days today deltas
        = some ⟨histDates days today, portfolioValues days deltas⟩
      ∧ (histDates days today).length = days
      ∧ (portfolioValues days deltas).length = days)
    ∧ ∀ (today : ℤ) (deltas : ℕ → ℚ),
        generate_historical_data 0 today deltas = some ⟨[], []⟩ := by
  constructor
  · intro days today deltas
    exact ⟨generate_historical_data_eq days today deltas, histDates_length days today,
      portfolioValues_length days deltas⟩
  · intro today deltas
    rfl

/-- C2 (amended): for every `days ≥ 1` and drawn deltas in
[-0.02, 0.02], `generate_historical_data(days)` produces exactly `days`
entries whose dates decrease by exactly one calendar day per step
starting from today, and every stored value is nonnegative; every stored
value is moreover strictly positive whenever `days ≤ 832` (the unrounded
compounded value is always strictly positive, but rounding to two
decimals can reach 0.00 from `days = 833` on). -/
theorem generate_historical_data_spec (days : ℕ) (today : ℤ) (deltas : ℕ → ℚ)
    (hd : ∀ i < days, -(1 / 50) ≤ deltas i ∧ deltas i ≤ 1 / 50) :
    generate_historical_data days today deltas
      = some ⟨histDates days today, portfolioValues days deltas⟩
    ∧ (histDates days today).length = days
    ∧ (portfolioValues days deltas).length = days
    ∧ (∀ i, i + 1 < days →
        (histDates days today).getD (i + 1) 0 = (histDates days today).getD i 0 - 1)
    ∧ (0 < days → (histDates days today).getD 0 0 = today)
    ∧ (∀ v ∈ portfolioValues days deltas, 0 ≤ v)
    ∧ (days ≤ 832 → ∀ v ∈ portfolioValues days deltas, 0 < v) := by
  refine ⟨generate_historical_data_eq days today deltas, histDates_length days today,
    portfolioValues_length days deltas, ?_, ?_, ?_, ?_⟩
  · intro i hi
    rw [histDates, getD_map_range _ _ hi, getD_map_range _ _ (by omega)]
    push_cast
    ring
  · intro hdays
    rw [histDates, getD_map_range _ _ hdays]
    simp
  · intro v hv
    rw [portfolioValues, List.mem_map] at hv
    obtain ⟨i, hmem, rfl⟩ := hv
    rw [List.mem_range] at hmem
    have hlow : ∀ j < i + 1, -(1 / 50) ≤ deltas j :=
      fun j hj => (hd j (lt_of_lt_of_le hj hmem)).1
    exact round2_nonneg (compoundedValue_pos hlow).le
  · intro h832 v hv
    rw [portfolioValues, List.mem_map] at hv
    obtain ⟨i, hmem, rfl⟩ := hv
    rw [List.mem_range] at hmem
    have hlow : ∀ j < i + 1, -(1 / 50) ≤ deltas j :=
      fun j hj => (hd j (lt_of_lt_of_le hj hmem)).1
    refine round2_pos (le_trans lb_832 (le_trans ?_ (compoundedValue_lower hlow)))
    have hpow : ((49 : ℚ) / 50) ^ 832 ≤ ((49 : ℚ) / 50) ^ (i + 1) :=
      pow_le_pow_of_le_one (by norm_num) (by norm_num) (by omega)
    nlinarith [hpow]

/-- C2 witness: the theorem instantiated at `days = 2` with zero deltas. -/
theorem generate_historical_data_spec_witness :
    generate_historical_data 2 0 (fun _ => 0)
      = some ⟨histDates 2 0, portfolioValues 2 fun _ => 0⟩
    ∧ (histDates 2 0).length = 2
    ∧ (portfolioValues 2 fun _ => 0).length = 2
    ∧ (∀ i, i + 1 < 2 →
        (histDates 2 0).getD (i + 1) 0 = (histDates 2 0).getD i 0 - 1)
    ∧ (0 < 2 → (histDates 2 0).getD 0 0 = 0)
    ∧ (∀ v ∈ portfolioValues 2 fun _ => 0, 0 ≤ v)
    ∧ (2 ≤ 832 → ∀ v ∈ portfolioValues 2 fun _ => 0, 0 < v) :=
  generate_historical_data_spec 2 0 (fun _ => 0) (fun i _ => by norm_num)

lemma compoundedValue_const (n : ℕ) :
    compoundedValue (fun _ => -(1 / 50)) n = 100000 * ((49 : ℚ) / 50) ^ n := by
  induction n with
  | zero => simp [compoundedValue]
  | succ n ih =>
    show compoundedValue (fun _ => -(1 / 50)) n * (1 + -(1 / 50)) = _
    rw [ih, pow_succ]
    ring

/-- C2 counterexample: with `days = 833` and every delta equal to -0.02
(inside the closed interval [-0.02, 0.02]), the last stored value rounds
to 0.00, so the returned table contains a value that is not strictly
positive. -/
theorem historical_value_zero_cex :
    -(1 / 50 : ℚ) ∈ Set.Icc (-(1 / 50) : ℚ) (1 / 50)
    ∧ (portfolioValues 833 fun _ => -(1 / 50)).length = 833
    ∧ (0 : ℚ) ∈ portfolioValues 833 fun _ => -(1 / 50) := by
  refine ⟨by rw [Set.mem_Icc]; constructor <;> norm_num,
    portfolioValues_length 833 _, ?_⟩
  rw [portfolioValues, List.mem_map]
  refine ⟨832, List.mem_range.mpr (by norm_num), ?_⟩
  rw [compoundedValue_const, show (832 : ℕ) + 1 = 833 from rfl]
  have hfloor : ⌊100 * (100000 * ((49 : ℚ) / 50) ^ 833) + 1 / 2⌋ = 0 := by
    rw [Int.floor_eq_zero_iff, Set.mem_Ico]
    constructor
    · positivity
    · linarith [ub_833]
  rw [round2, hfloor]
  norm_num

lemma compoundedValue_eq_prod (deltas : ℕ → ℚ) (n : ℕ) :
    compoundedValue deltas n = 100000 * ∏ j ∈ Finset.range n, (1 + deltas j) := by
  induction n with
  | zero => simp [compoundedValue]
  | succ n ih =>
    show compoundedValue deltas n * (1 + deltas n) = _
    rw [ih, Finset.prod_range_succ]
    ring

/-- C3 (amended): the code rounds only the *appended* output and carries
the unrounded running value into the next iteration, so the `i`-th stored
value equals `round2` of `100000` times the product of all `(1 + delta)`
factors up to step `i` — not a function of the previously *rounded* value
as the spec's reference algorithm reads. -/
theorem portfolioValues_eq_unrounded_compound (days : ℕ) (deltas : ℕ → ℚ) :
    portfolioValues days deltas
      = (List.range days).map fun i =>
          round2 (100000 * ∏ j ∈ Finset.range (i + 1), (1 + deltas j)) := by
  unfold portfolioValues
  simp only [compoundedValue_eq_prod]

/-- The concrete delta stream separating the code from the spec's
rounded-carry reading: +0.000004% then +0.000001%, both inside
[-0.02, 0.02]. -/
def cexDeltas : ℕ → ℚ :=
  fun i => if i = 0 then 1 / 25000000 else if i = 1 then 1 / 100000000 else 0

/-- C3 counterexample: after two steps the code's sequence (which carries
the unrounded value) differs from the spec's reference sequence (which
carries the rounded value): 100000.004 rounds to 100000.00, and the next
multiplication gives 100000.005000… (code, rounds to 100000.01) versus
100000.001 (spec, rounds to 100000.00). -/
theorem portfolioValues_ne_specHistoryValues_cex :
    (0 ≤ cexDeltas 0 ∧ cexDeltas 0 ≤ 1 / 50) ∧ (0 ≤ cexDeltas 1 ∧ cexDeltas 1 ≤ 1 / 50)
    ∧ portfolioValues 2 cexDeltas ≠ specHistoryValues 2 cexDeltas := by
  have hd0 : cexDeltas 0 = 1 / 25000000 := rfl
  have hd1 : cexDeltas 1 = 1 / 100000000 := rfl
  refine ⟨⟨by rw [hd0]; norm_num, by rw [hd0]; norm_num⟩,
    ⟨by rw [hd1]; norm_num, by rw [hd1]; norm_num⟩, ?_⟩
  have hcv1 : compoundedValue cexDeltas 1 = 25000001 / 250 := by
    simp only [compoundedValue, hd0]
    norm_num
  have hcv2 : compoundedValue cexDeltas 2 = 2500000125000001 / 25000000000 := by
    simp only [compoundedValue, hd0, hd1]
    norm_num
  have hs1 : specValue cexDeltas 1 = 100000 := by
    simp only [specValue, compoundedValue, hd0, round2]
    norm_num
  have hs2 : specValue cexDeltas 2 = 100000 := by
    show round2 (specValue cexDeltas 1 * (1 + cexDeltas 1)) = 100000
    rw [hs1, hd1, round2]
    norm_num
  rw [portfolioValues, specHistoryValues, show List.range 2 = [0, 1] from rfl]
  simp only [List.map_cons, List.map_nil]
  rw [show (0 : ℕ) + 1 = 1 from rfl, show (1 : ℕ) + 1 = 2 from rfl,
    hcv1, hcv2, hs1, hs2, round2, round2]
  norm_num

/-! ## C4 and C7: allocation percentages -/

lemma allocation_percentages_of_sum_ne {vs : List ℚ} (h : vs.sum ≠ 0) :
    allocation_percentages vs = vs.map fun v => PdFloat.num (round2 (v / vs.sum * 100)) := by
  unfold allocation_percentages allocPctEntry
  simp [h]

lemma sum_map_round2_err (ps : List ℚ) :
    |(ps.map round2).sum - ps.sum| ≤ ps.length * (1 / 200) := by
  induction ps with
  | nil => simp
  | cons a l ih =>
    simp only [List.map_cons, List.sum_cons, List.length_cons]
    have h1 := abs_round2_sub_le a
    have heq : round2 a + (List.map round2 l).sum - (a + l.sum)
        = (round2 a - a) + ((List.map round2 l).sum - l.sum) := by ring
    rw [heq]
    refine le_trans (abs_add _ _) ?_
    push_cast
    linarith

lemma sum_map_div_mul (vs : List ℚ) (T c : ℚ) :
    (vs.map fun v => v / T * c).sum = vs.sum / T * c := by
  induction vs with
  | nil => simp
  | cons a l ih =>
    simp only [List.map_cons, List.sum_cons, ih]
    ring

/-- C4 (amended): for every asset table of at most 20 rows whose Value
column has a strictly positive sum (the program's tables have at most 5),
the rounded percentages `round2 (v / total * 100)` sum to 100 within an
absolute tolerance of 0.1; for unboundedly many rows the per-row rounding
errors can accumulate beyond the tolerance. -/
theorem allocation_percentages_sum_close (vs : List ℚ)
    (hn : vs.length ≤ 20) (hpos : 0 < vs.sum) :
    allocation_percentages vs = vs.map (fun v => PdFloat.num (round2 (v / vs.sum * 100)))
    ∧ |(vs.map fun v => round2 (v / vs.sum * 100)).sum - 100| ≤ 1 / 10 := by
  refine ⟨allocation_percentages_of_sum_ne hpos.ne', ?_⟩
  have key := sum_map_round2_err (vs.map fun v => v / vs.sum * 100)
  rw [List.map_map] at key
  have hsum : (vs.map fun v => v / vs.sum * 100).sum = 100 := by
    rw [sum_map_div_mul, div_self hpos.ne']
    norm_num
  rw [hsum, List.length_map] at key
  have hcomp : List.map (round2 ∘ fun v => v / vs.sum * 100) vs
      = vs.map fun v => round2 (v / vs.sum * 100) := rfl
  rw [hcomp] at key
  have hlen : (vs.length : ℚ) ≤ 20 := by exact_mod_cast hn
  nlinarith [key]

/-- C4 witness: a two-row table with values 30000 and 70000. -/
theorem allocation_percentages_sum_close_witness :
    allocation_percentages [30000, 70000]
      = ([30000, 70000] : List ℚ).map
          (fun v => PdFloat.num (round2 (v / ([30000, 70000] : List ℚ).sum * 100)))
    ∧ |(([30000, 70000] : List ℚ).map
          fun v => round2 (v / ([30000, 70000] : List ℚ).sum * 100)).sum - 100| ≤ 1 / 10 :=
  allocation_percentages_sum_close [30000, 70000] (by norm_num)
    (by norm_num [List.sum_cons, List.sum_nil])

/-- A 23-row table with total 100: 22 rows of value 0.0049 (each rounding
down to a 0.00 percentage) and one row of 99.8922 (rounding to 99.89). -/
def cexAllocation : List ℚ := List.replicate 22 (49 / 10000) ++ [998922 / 10000]

/-- C4 counterexample: on the 23-row table `cexAllocation` the rounded
percentages sum to 99.89, which misses 100 by 0.11 > 0.1, so the claimed
tolerance does not hold regardless of the number of rows. -/
theorem allocation_percentages_sum_cex :
    0 < cexAllocation.sum
    ∧ allocation_percentages cexAllocation
        = cexAllocation.map (fun v => PdFloat.num (round2 (v / cexAllocation.sum * 100)))
    ∧ ¬ |(cexAllocation.map fun v => round2 (v / cexAllocation.sum * 100)).sum - 100| ≤ 1 / 10 := by
  have hsum : cexAllocation.sum = 100 := by
    rw [cexAllocation, List.sum_append, List.sum_replicate, List.sum_cons, List.sum_nil,
      nsmul_eq_mul]
    norm_num
  refine ⟨by rw [hsum]; norm_num,
    allocation_percentages_of_sum_ne (by rw [hsum]; norm_num), ?_⟩
  have hS : (cexAllocation.map fun v => round2 (v / 100 * 100)).sum = 9989 / 100 := by
    rw [cexAllocation, List.map_append, List.map_replicate, List.map_cons, List.map_nil,
      List.sum_append, List.sum_replicate, List.sum_cons, List.sum_nil, nsmul_eq_mul]
    simp only [round2]
    norm_num
  simp only [hsum]
  rw [hS]
  rw [abs_le]
  push_neg
  intro hcon
  norm_num at hcon

/-- C7 (amended): when the Value column sums to 0 the percentage
computation does not fault, but it yields pandas float division results —
NaN for zero-valued rows and a signed infinity for nonzero rows — rather
than a defined numeric sentinel such as 0. -/
theorem allocation_percentages_zero_total (vs : List ℚ) (h : vs.sum = 0) :
    allocation_percentages vs
      = vs.map fun v =>
          if v = 0 then PdFloat.nan else if 0 < v then PdFloat.inf else PdFloat.ninf := by
  unfold allocation_percentages allocPctEntry
  rw [h]
  simp

/-- C7 witness: a zero-total table with one positive and one negative
value maps to a positive and a negative infinity. -/
theorem allocation_percentages_zero_total_witness :
    allocation_percentages [1, -1]
      = ([1, -1] : List ℚ).map fun v =>
          if v = 0 then PdFloat.nan else if 0 < v then PdFloat.inf else PdFloat.ninf :=
  allocation_percentages_zero_total [1, -1] (by norm_num [List.sum_cons, List.sum_nil])

/-- C7 counterexample: the all-zero two-row table has total 0 and its
percentage column is `[NaN, NaN]`, not the sentinel 0 for every row. -/
theorem allocation_zero_total_not_sentinel_cex :
    ([0, 0] : List ℚ).sum = 0
    ∧ allocation_percentages [0, 0] = [PdFloat.nan, PdFloat.nan]
    ∧ PdFloat.nan ≠ PdFloat.num 0 := by
  have h0 : ([0, 0] : List ℚ).sum = 0 := by norm_num [List.sum_cons, List.sum_nil]
  refine ⟨h0, ?_, by intro hcon; cases hcon⟩
  unfold allocation_percentages allocPctEntry
  rw [h0]
  simp

/-! ## C5: overview metrics at the spec's midpoint scenario -/

/-- The table produced when every uniform draw is fixed at the midpoint
of its range: 55000 for values, 5.0 for returns, 12.5 for risks. -/
def midpointDF : RawColumns :=
  generate_portfolio_columns 5 (fun _ => 55000) (fun _ => 5) (fun _ => 25 / 2)

/-- C5: the overview metrics are the sum of the Value column and the
arithmetic means of the Returns and Risk columns; with all draws fixed at
the midpoints, `generate_portfolio_data(5)` yields five rows of
(55000, 5.0, 12.5), total value 275000, average return 5.0, average risk
12.5, and allocation percentage 20.00 for every row. -/
theorem portfolio_metrics_midpoint :
    (∀ c : RawColumns, total_value c = c.value.sum)
    ∧ (∀ c : RawColumns, avg_return c = c.returns.sum / c.returns.length)
    ∧ (∀ c : RawColumns, avg_risk c = c.risk.sum / c.risk.length)
    ∧ generate_portfolio_data 5 (fun _ => 55000) (fun _ => 5) (fun _ => 25 / 2)
        = some midpointDF
    ∧ midpointDF.asset = assetNames
    ∧ midpointDF.value = List.replicate 5 55000
    ∧ midpointDF.returns = List.replicate 5 5
    ∧ midpointDF.risk = List.replicate 5 (25 / 2)
    ∧ total_value midpointDF = 275000
    ∧ avg_return midpointDF = 5
    ∧ avg_risk midpointDF = 25 / 2
    ∧ allocation_percentages midpointDF.value = List.replicate 5 (PdFloat.num 20) := by
  have h55 : round2 55000 = 55000 := by exact_mod_cast round2_intCast 55000
  have h5 : round2 5 = 5 := by exact_mod_cast round2_intCast 5
  have h125 : round2 (25 / 2) = 25 / 2 := by
    rw [round2]
    norm_num
  have hval : midpointDF.value = List.replicate 5 (55000 : ℚ) := by
    have : midpointDF.value = List.replicate 5 (round2 (55000 : ℚ)) := rfl
    rw [this, h55]
  have hret : midpointDF.returns = List.replicate 5 (5 : ℚ) := by
    have : midpointDF.returns = List.replicate 5 (round2 (5 : ℚ)) := rfl
    rw [this, h5]
  have hrisk : midpointDF.risk = List.replicate 5 ((25 : ℚ) / 2) := by
    have : midpointDF.risk = List.replicate 5 (round2 ((25 : ℚ) / 2)) := rfl
    rw [this, h125]
  have hsum5 : (List.replicate 5 (55000 : ℚ)).sum = 275000 := by
    rw [List.sum_replicate, nsmul_eq_mul]
    norm_num
  have halloc : allocation_percentages (List.replicate 5 (55000 : ℚ))
      = List.replicate 5 (PdFloat.num 20) := by
    rw [allocation_percentages_of_sum_ne (by rw [hsum5]; norm_num)]
    simp only [hsum5, List.map_replicate]
    have h20 : round2 ((55000 : ℚ) / 275000 * 100) = 20 := by
      rw [round2]
      norm_num
    rw [h20]
  refine ⟨fun _ => rfl, fun _ => rfl, fun _ => rfl, rfl, rfl, hval, hret, hrisk, ?_, ?_, ?_, ?_⟩
  · rw [total_value, hval, hsum5]
  · rw [avg_return, hret, List.sum_replicate, nsmul_eq_mul, List.length_replicate]
    norm_num
  · rw [avg_risk, hrisk, List.sum_replicate, nsmul_eq_mul, List.length_replicate]
    norm_num
  · rw [hval, halloc]

/-! ## C6: the `describe()` summary block -/

lemma describeColumn_single (x : ℚ) :
    describeColumn [x] = ⟨1, some x, none, some x, some x, some x, some x, some x⟩ := by
  unfold describeColumn describeMean describeVariance percentileAt sortedColumn
  norm_num [List.insertionSort, List.orderedInsert, List.min?, List.max?]

/-- C6: the summary block applies `describe()` — count, mean, sample
standard deviation with `ddof=1`, min, the three quartiles and max —
independently to the Value, Returns and Risk columns; on a single-row
table the standard deviation is undefined (NaN, modelled as `none` for
its square, the sample variance) and min = max = the single value. -/
theorem summary_stats_single_row (a b d : ℚ) (c : RawColumns)
    (hv : c.value = [a]) (hr : c.returns = [b]) (hk : c.risk = [d]) :
    summary_stats c = (describeColumn [a], describeColumn [b], describeColumn [d])
    ∧ (describeColumn [a]).count = 1
    ∧ (describeColumn [a]).sampleVariance = none
    ∧ (describeColumn [a]).mean = some a
    ∧ (describeColumn [a]).min = some a ∧ (describeColumn [a]).max = some a
    ∧ (describeColumn [a]).q25 = some a ∧ (describeColumn [a]).q50 = some a
    ∧ (describeColumn [a]).q75 = some a
    ∧ (describeColumn [b]).sampleVariance = none
    ∧ (describeColumn [b]).min = some b ∧ (describeColumn [b]).max = some b
    ∧ (describeColumn [d]).sampleVariance = none
    ∧ (describeColumn [d]).min = some d ∧ (describeColumn [d]).max = some d := by
  refine ⟨by rw [summary_stats, hv, hr, hk], ?_⟩
  rw [describeColumn_single a, describeColumn_single b, describeColumn_single d]
  exact ⟨rfl, rfl, rfl, rfl, rfl, rfl, rfl, rfl, rfl, rfl, rfl, rfl, rfl, rfl⟩

/-- C6 witness: the theorem instantiated at the single-row table with
value 1, return 2, risk 3. -/
theorem summary_stats_single_row_witness :
    summary_stats ⟨["Stock"], [1], [2], [3], ["c"]⟩
      = (describeColumn [1], describeColumn [2], describeColumn [3])
    ∧ (describeColumn [(1 : ℚ)]).count = 1
    ∧ (describeColumn [(1 : ℚ)]).sampleVariance = none
    ∧ (describeColumn [(1 : ℚ)]).mean = some 1
    ∧ (describeColumn [(1 : ℚ)]).min = some 1 ∧ (describeColumn [(1 : ℚ)]).max = some 1
    ∧ (describeColumn [(1 : ℚ)]).q25 = some 1 ∧ (describeColumn [(1 : ℚ)]).q50 = some 1
    ∧ (describeColumn [(1 : ℚ)]).q75 = some 1
    ∧ (describeColumn [(2 : ℚ)]).sampleVariance = none
    ∧ (describeColumn [(2 : ℚ)]).min = some 2 ∧ (describeColumn [(2 : ℚ)]).max = some 2
    ∧ (describeColumn [(3 : ℚ)]).sampleVariance = none
    ∧ (describeColumn [(3 : ℚ)]).min = some 3 ∧ (describeColumn [(3 : ℚ)]).max = some 3 :=
  summary_stats_single_row 1 2 3 ⟨["Stock"], [1], [2], [3], ["c"]⟩ rfl rfl rfl

/-! ## C8: session snapshot frame conditions -/

/-- C8: every `show` action leaves the session snapshot unchanged, while
`refresh_data` replaces both tables wholesale with tables built from
fresh draws only — its result does not depend on any field of the prior
snapshot — and two successive refreshes are two such independent
replacements. -/
theorem session_actions_frame :
    (∀ s, show_portfolio_overview s = s)
    ∧ (∀ s, show_asset_allocation s = s)
    ∧ (∀ s, show_historical_performance s = s)
    ∧ (∀ s, show_risk_vs_return s = s)
    ∧ (∀ s, show_detailed_analysis s = s)
    ∧ (∀ r s₁ s₂, refresh_data r s₁ = refresh_data r s₂)
    ∧ (∀ r₁ r₂ s, refresh_data r₂ (refresh_data r₁ s) = refresh_data r₂ s) :=
  ⟨fun _ => rfl, fun _ => rfl, fun _ => rfl, fun _ => rfl, fun _ => rfl,
    fun _ _ _ => rfl, fun _ _ _ => rfl⟩
